import Mathlib

/-!
Shallow embedding of the connection-tracking core of `src/interface/connPanel.py`
(the `ConnPanel` class and its module-level helpers).  Python dictionaries are
modelled as association lists, the mutable panel object as an explicit
`PanelState` threaded through each operation, and the external collaborators
(netstat socket source, TorCtl protocol client, clock) as an `Env` record of
query results.  Python exceptions that the source catches are modelled by
`Option`-valued environment queries; exceptions that would escape a method are
surfaced as an explicit `PyError` component of the result.  Numeric strings are
assumed where Python would call `int(...)` on netstat fields.
-/

namespace ConnPanel

/-- Errors that can escape a `ConnPanel` method (uncaught Python exceptions). -/
inductive PyError
  | typeError
  | indexError
deriving DecidableEq, Repr

instance {ε α : Type} [DecidableEq ε] [DecidableEq α] : DecidableEq (Except ε α)
  | Except.ok a, Except.ok b =>
    if h : a = b then Decidable.isTrue (by rw [h])
    else Decidable.isFalse (by intro hc; cases hc; exact h rfl)
  | Except.error a, Except.error b =>
    if h : a = b then Decidable.isTrue (by rw [h])
    else Decidable.isFalse (by intro hc; cases hc; exact h rfl)
  | Except.ok _, Except.error _ => Decidable.isFalse (by intro hc; cases hc)
  | Except.error _, Except.ok _ => Decidable.isFalse (by intro hc; cases hc)

/-- A Python dict key of the form `(ip, port)` where the port may be an `int`
or a `str`: `getFingerprint` converts its port argument with `int(port)` before
keying `fingerprintLookupCache`, while `getNickname` keys
`nicknameLookupCache` with the port exactly as passed (a string at every call
site in the module). -/
inductive PyPort
  | int (n : Nat)
  | str (s : String)
deriving DecidableEq, Repr

/-- One parsed line of `netstat -npt` output: local/foreign address and port. -/
structure RawConn where
  lIP : String
  lPort : String
  fIP : String
  fPort : String
deriving DecidableEq, Repr

/-- A consensus (network status) entry as returned by
`conn.get_network_status`, restricted to the fields the module reads. -/
structure NSEntry where
  ip : String
  orport : Nat
  idhex : String
  nickname : String
deriving DecidableEq, Repr

/-- A connection record, the tuple
`(type, local IP, local port, foreign IP, foreign port, country code, time)`
indexed in the source by `CONN_TYPE .. CONN_TIME`. -/
structure ConnEntry where
  type : String
  lIP : String
  lPort : String
  fIP : String
  fPort : String
  country : String
  time : Nat
deriving DecidableEq, Repr

/-- The five-element `connectionCount` list; index 0..4 corresponds to the
labels `["inbound", "outbound", "client", "directory", "control"]`. -/
structure Counts where
  inbound : Nat
  outbound : Nat
  client : Nat
  directory : Nat
  control : Nat
deriving DecidableEq, Repr

/-- Sum of the five category counters. -/
def Counts.sum (c : Counts) : Nat :=
  c.inbound + c.outbound + c.client + c.directory + c.control

/-- Lookup in an association list modelling a Python dict. -/
def dictLookup {α β : Type} [DecidableEq α] : List (α × β) → α → Option β
  | [], _ => none
  | (k, v) :: rest, key => if k = key then some v else dictLookup rest key

/-- Assignment `d[key] = val` on a Python dict: overwrite the existing binding
if present, append otherwise. -/
def dictInsert {α β : Type} [DecidableEq α] : List (α × β) → α → β → List (α × β)
  | [], key, val => [(key, val)]
  | (k, v) :: rest, key, val =>
    if k = key then (k, val) :: rest else (k, v) :: dictInsert rest key val

/-- Python `int(s)` on the numeric strings this module feeds it (ports from
netstat and configured port options).  Non-digit characters would raise in
Python and are mapped to junk here; no call site passes them. -/
def pyInt (s : String) : Nat :=
  s.data.foldl (fun acc c => acc * 10 + (c.toNat - 48)) 0

/-- Helper for `pySplitDot`, accumulating the current component in reverse. -/
def splitDotAux : List Char → List Char → List String
  | [], acc => [String.mk acc.reverse]
  | c :: rest, acc =>
    if c = '.' then String.mk acc.reverse :: splitDotAux rest []
    else splitDotAux rest (c :: acc)

/-- Python `ipAddr.split(".")`. -/
def pySplitDot (s : String) : List String :=
  splitDotAux s.data []

/-- Source `_ipToInt`: the comparison integer used for sorting IP addresses.
Note the source multiplies by 255 per component. -/
def _ipToInt (ipAddr : String) : Nat :=
  (pySplitDot ipAddr).foldl (fun total comp => total * 255 + pyInt comp) 0

/-- Modelled from the spec: the spec states that in raw-address mode a
dotted-quad is "compared as a 32-bit integer", i.e. the base-256 value of its
four octets.  This definition follows the spec's words, for comparison with
the source's `_ipToInt`. -/
def specIpToInt32 (ipAddr : String) : Nat :=
  (pySplitDot ipAddr).foldl (fun total comp => total * 256 + pyInt comp) 0

/-- The compiled-in directory-server allowlist `DIR_SERVERS`. -/
def DIR_SERVERS : List (String × String) :=
  [("86.59.21.38", "80"),
   ("128.31.0.34", "9031"),
   ("216.224.124.114", "9030"),
   ("80.190.246.100", "80"),
   ("194.109.206.212", "80"),
   ("213.73.91.31", "80"),
   ("208.83.223.34", "443")]

/-- Listing-type enum `LIST_IP`. -/
def LIST_IP : Nat := 0

/-- Listing-type enum `LIST_HOSTNAME`. -/
def LIST_HOSTNAME : Nat := 1

/-- Listing-type enum `LIST_FINGERPRINT`. -/
def LIST_FINGERPRINT : Nat := 2

/-- Listing-type enum `LIST_NICKNAME`. -/
def LIST_NICKNAME : Nat := 3

/-- Sort-type enum `ORD_TYPE`. -/
def ORD_TYPE : Nat := 0

/-- Sort-type enum `ORD_FOREIGN_LISTING`. -/
def ORD_FOREIGN_LISTING : Nat := 1

/-- Sort-type enum `ORD_SRC_LISTING`. -/
def ORD_SRC_LISTING : Nat := 2

/-- Sort-type enum `ORD_DST_LISTING`. -/
def ORD_DST_LISTING : Nat := 3

/-- Sort-type enum `ORD_COUNTRY`. -/
def ORD_COUNTRY : Nat := 4

/-- Sort-type enum `ORD_FOREIGN_PORT`. -/
def ORD_FOREIGN_PORT : Nat := 5

/-- Sort-type enum `ORD_SRC_PORT`. -/
def ORD_SRC_PORT : Nat := 6

/-- Sort-type enum `ORD_DST_PORT`. -/
def ORD_DST_PORT : Nat := 7

/-- Sort-type enum `ORD_TIME`. -/
def ORD_TIME : Nat := 8

/-- The `TYPE_WEIGHTS` table defining the ordering of connection categories. -/
def typeWeight (t : String) : Int :=
  if t = "inbound" then 0
  else if t = "outbound" then 1
  else if t = "client" then 2
  else if t = "directory" then 3
  else if t = "control" then 4
  else if t = "localhost" then 5
  else 0

/-- The mutable state of a `ConnPanel` object, restricted to the fields of the
connection-tracking core (rendering and cursor fields are out of scope). -/
structure PanelState where
  pid : Bool
  orPort : String
  dirPort : String
  controlPort : String
  listingType : Nat
  sortOrdering : List Nat
  localhostEntry : Option (ConnEntry × String)
  fingerprintLookupCache : List ((String × PyPort) × String)
  nicknameLookupCache : List ((String × PyPort) × String)
  fingerprintMappings : List (String × List (Nat × String × String))
  orconnStatusCache : Option (List String)
  orconnStatusCacheValid : Bool
  clientConnectionCache : Option (List String)
  providedGeoipWarning : Bool
  isPaused : Bool
  pauseTime : Nat
  connectionsBuffer : List ConnEntry
  connections : List ConnEntry
  connectionCount : Counts
  lastUpdate : Int
  log : List String
deriving DecidableEq, Repr

/-- The external collaborators consulted during one operation: the clock, the
netstat socket source (`none` models the `IOError` of a failed query), and the
TorCtl protocol client (`none` values model caught `ErrorReply`-style
failures). -/
structure Env where
  now : Nat
  netstat : Option (List RawConn)
  clientConnections : List String
  geoip : String → Option String
  orconnStatus : Option (List String)
  descDown : String → Option Bool
  networkStatus : String → Option (List NSEntry)
  selfInfo : Option (String × String × String)

/-- Python `cmp` on integers. -/
def pyCmp (a b : Int) : Int :=
  if a < b then -1 else if b < a then 1 else 0

/-- Python `cmp` on strings (lexicographic). -/
def pyCmpStr (a b : String) : Int :=
  match compare a b with
  | Ordering.lt => -1
  | Ordering.eq => 0
  | Ordering.gt => 1

/-- The `ORD_TYPE` comparator from `SORT_TYPES`. -/
def cmpType (x y : ConnEntry) : Int :=
  typeWeight x.type - typeWeight y.type

/-- The listing wrapper for the raw-address display mode (`LIST_IP`):
`lambda ip, port: _ipToInt(ip)`. -/
def listingWrapperIP (ip : String) (_port : String) : Int :=
  (_ipToInt ip : Int)

/-- The `ORD_FOREIGN_LISTING` comparator under the `LIST_IP` wrapper. -/
def cmpForeignListing (x y : ConnEntry) : Int :=
  pyCmp (listingWrapperIP x.fIP x.fPort) (listingWrapperIP y.fIP y.fPort)

/-- The `ORD_SRC_LISTING` comparator under the `LIST_IP` wrapper. -/
def cmpSrcListing (x y : ConnEntry) : Int :=
  pyCmp (listingWrapperIP (if x.type = "inbound" then x.fIP else x.lIP) x.fPort)
        (listingWrapperIP (if y.type = "inbound" then y.fIP else y.lIP) y.fPort)

/-- The `ORD_DST_LISTING` comparator under the `LIST_IP` wrapper. -/
def cmpDstListing (x y : ConnEntry) : Int :=
  pyCmp (listingWrapperIP (if x.type = "inbound" then x.lIP else x.fIP) x.fPort)
        (listingWrapperIP (if y.type = "inbound" then y.lIP else y.fIP) y.fPort)

/-- The `ORD_COUNTRY` comparator from `SORT_TYPES`. -/
def cmpCountry (x y : ConnEntry) : Int :=
  pyCmpStr x.country y.country

/-- The `ORD_FOREIGN_PORT` comparator from `SORT_TYPES`. -/
def cmpForeignPort (x y : ConnEntry) : Int :=
  (pyInt x.fPort : Int) - (pyInt y.fPort : Int)

/-- The `ORD_SRC_PORT` comparator from `SORT_TYPES`. -/
def cmpSrcPort (x y : ConnEntry) : Int :=
  (pyInt (if x.type = "inbound" then x.fPort else x.lPort) : Int)
    - (pyInt (if y.type = "inbound" then y.fPort else y.lPort) : Int)

/-- The `ORD_DST_PORT` comparator from `SORT_TYPES`. -/
def cmpDstPort (x y : ConnEntry) : Int :=
  (pyInt (if x.type = "inbound" then x.lPort else x.fPort) : Int)
    - (pyInt (if y.type = "inbound" then y.lPort else y.fPort) : Int)

/-- The `ORD_TIME` comparator from `SORT_TYPES`:
`lambda x, y: cmp(-x[CONN_TIME], -y[CONN_TIME])`. -/
def cmpTime (x y : ConnEntry) : Int :=
  pyCmp (-(x.time : Int)) (-(y.time : Int))

/-- Selects the comparator appended to `sorts` for one entry of
`sortOrdering`, with the listing sorts built from the `LIST_IP` wrapper (the
constructor default display mode).  The source's `LIST_FINGERPRINT` and
`LIST_NICKNAME` wrappers instead call `getFingerprint`/`getNickname` inside
the comparator, reading and writing the resolution caches while sorting; this
embedding models only the raw-address mode, whose wrapper is the pure
`_ipToInt`, and theorems about states in the other display modes must not
rely on the sort leaving the caches unchanged. -/
def sortComparator (ord : Nat) : ConnEntry → ConnEntry → Int :=
  if ord = ORD_TYPE then cmpType
  else if ord = ORD_FOREIGN_LISTING then cmpForeignListing
  else if ord = ORD_SRC_LISTING then cmpSrcListing
  else if ord = ORD_DST_LISTING then cmpDstListing
  else if ord = ORD_COUNTRY then cmpCountry
  else if ord = ORD_FOREIGN_PORT then cmpForeignPort
  else if ord = ORD_SRC_PORT then cmpSrcPort
  else if ord = ORD_DST_PORT then cmpDstPort
  else if ord = ORD_TIME then cmpTime
  else fun _ _ => 0

/-- Source `_multisort`: first non-zero comparator decides; a one-element list
returns its comparison unconditionally. -/
def _multisort (x y : ConnEntry) : List (ConnEntry → ConnEntry → Int) → Int
  | [] => 0
  | [s] => s x y
  | s :: rest => if s x y ≠ 0 then s x y else _multisort x y rest

/-- Stable insertion of `x` into the already-sorted accumulator: `x` is placed
before the first element it compares strictly below, hence after every element
it ties with (the placement a Python stable `list.sort(cmp)` gives elements
processed later). -/
def pyInsert (cmpf : ConnEntry → ConnEntry → Int) (x : ConnEntry) :
    List ConnEntry → List ConnEntry
  | [] => [x]
  | y :: ys => if cmpf x y < 0 then x :: y :: ys else y :: pyInsert cmpf x ys

/-- Python `list.sort(cmp)` modelled as a stable insertion sort. -/
def pySort (cmpf : ConnEntry → ConnEntry → Int) (l : List ConnEntry) :
    List ConnEntry :=
  l.foldl (fun acc x => pyInsert cmpf x acc) []

/-- Source `sortConnections`: sorts `connections` by the configured
`sortOrdering` with `_multisort` tie-breaking.  Faithful to the source for
the raw-address (`LIST_IP`) display mode; in the fingerprint and nickname
display modes the source builds cache-mutating comparators, which this pure
definition does not model (see `sortComparator`). -/
def sortConnections (st : PanelState) : PanelState :=
  let sorts := st.sortOrdering.map sortComparator
  { st with connections := pySort (fun x y => _multisort x y sorts) st.connections }

/-- Extraction of every other whitespace token of the `orconn-status` reply
(the `isOdd` loop keeps the nickname tokens). -/
def takeAlternate : List String → Bool → List String
  | [], _ => []
  | x :: rest, isOdd =>
    if isOdd then x :: takeAlternate rest (!isOdd) else takeAlternate rest (!isOdd)

/-- Python truthiness of `self.orconnStatusCache`: `None` and the empty list
are both falsy. -/
def orconnTruthy : Option (List String) → Bool
  | none => false
  | some l => !l.isEmpty

/-- The body of `getFingerprint` past the localhost check: cache consultation,
one-time `orconn-status` retrieval, consensus lookup with exact-port match and
the elimination heuristics, and caching of the result (including `UNKNOWN`). -/
def getFingerprintLookup (st : PanelState) (env : Env) (ipAddr port0 : String) :
    String × PanelState :=
  let port := pyInt port0
  match dictLookup st.fingerprintLookupCache (ipAddr, PyPort.int port) with
  | some v => (v, st)
  | none =>
    let orCache :=
      if st.orconnStatusCacheValid then st.orconnStatusCache
      else (env.orconnStatus).map (fun toks => takeAlternate toks true)
    let matchRes : Option String :=
      match dictLookup st.fingerprintMappings ipAddr with
      | none => none
      | some potentialMatches =>
        let m0 : Option String :=
          if potentialMatches.length = 1 then
            (potentialMatches.head?).map (fun t => t.2.1)
          else
            (potentialMatches.find? (fun t => t.1 == port)).map (fun t => t.2.1)
        match m0 with
        | some f => some f
        | none =>
          let operativeMatches := potentialMatches.filter (fun t =>
            let down := (env.descDown t.2.1).getD false
            let toRemove :=
              if orconnTruthy orCache && !down then !((orCache.getD []).contains t.2.2)
              else down
            !toRemove)
          if operativeMatches.length = 1 then
            (operativeMatches.head?).map (fun t => t.2.1)
          else none
    let res := matchRes.getD "UNKNOWN"
    (res,
      { st with
        orconnStatusCache := orCache,
        orconnStatusCacheValid := true,
        fingerprintLookupCache :=
          dictInsert st.fingerprintLookupCache (ipAddr, PyPort.int port) res })

/-- Source `getFingerprint`: the localhost entry is matched against the raw
string port before `int(port)` conversion, bypassing cache and heuristics. -/
def getFingerprint (st : PanelState) (env : Env) (ipAddr port : String) :
    String × PanelState :=
  match st.localhostEntry with
  | some lh =>
    if ipAddr = lh.1.lIP ∧ port = lh.1.lPort then (lh.2, st)
    else getFingerprintLookup st env ipAddr port
  | none => getFingerprintLookup st env ipAddr port

/-- Source `getNickname`: keyed by the raw `(ipAddr, port)` pair (port left a
string); a failed consensus lookup (`ErrorReply`) returns `UNKNOWN` without
caching, an empty consensus reply raises `IndexError` at `[0]`, and every
other outcome (the resolved nickname, or the `UNKNOWN` fingerprint sentinel)
is cached before returning. -/
def getNickname (st : PanelState) (env : Env) (ipAddr port : String) :
    PanelState × Except PyError String :=
  match dictLookup st.nicknameLookupCache (ipAddr, PyPort.str port) with
  | some v => (st, Except.ok v)
  | none =>
    let fpRes := getFingerprint st env ipAddr port
    if fpRes.1 ≠ "UNKNOWN" then
      match env.networkStatus fpRes.1 with
      | none => (fpRes.2, Except.ok "UNKNOWN")
      | some [] => (fpRes.2, Except.error PyError.indexError)
      | some (e :: _) =>
        ({ fpRes.2 with nicknameLookupCache :=
            (dictInsert fpRes.2.nicknameLookupCache (ipAddr, PyPort.str port) e.nickname) },
         Except.ok e.nickname)
    else
      ({ fpRes.2 with nicknameLookupCache :=
          (dictInsert fpRes.2.nicknameLookupCache (ipAddr, PyPort.str port) fpRes.1) },
       Except.ok fpRes.1)

/-- The `connTimes` dict built at the top of `reset`: mapping of each record's
foreign `(ip, port)` pair to its connection time (later records overwrite). -/
def buildConnTimes (l : List ConnEntry) : List ((String × String) × Nat) :=
  l.foldl (fun d e => dictInsert d (e.fIP, e.fPort) e.time) []

/-- Classification of one netstat entry inside `reset`'s loop: the local-port
tests, the client-set membership test (which iterates
`clientConnectionCache` and raises `TypeError` when that cache is `None`), and
the directory-allowlist test.  Returns the category string, the state mutated
by the resolver calls, and the incremented count vector. -/
def classifyEntry (env : Env) (st : PanelState) (raw : RawConn) (counts : Counts) :
    Except (PanelState × PyError) (String × PanelState × Counts) :=
  if raw.lPort = st.orPort ∨ raw.lPort = st.dirPort then
    Except.ok ("inbound", st, { counts with inbound := counts.inbound + 1 })
  else if raw.lPort = st.controlPort then
    Except.ok ("control", st, { counts with control := counts.control + 1 })
  else
    let fpRes := getFingerprint st env raw.fIP raw.fPort
    let nickRes := getNickname fpRes.2 env raw.fIP raw.fPort
    match nickRes.2 with
    | Except.error e => Except.error (nickRes.1, e)
    | Except.ok nickname =>
      match nickRes.1.clientConnectionCache with
      | none => Except.error (nickRes.1, PyError.typeError)
      | some clients =>
        let isClient := clients.any (fun c =>
          nickname == c ||
            (decide (c.data.length > 1) && (c.data.head? == some '$')
              && (fpRes.1 == String.mk (c.data.drop 1))))
        if isClient then
          Except.ok ("client", nickRes.1, { counts with client := counts.client + 1 })
        else if DIR_SERVERS.contains (raw.fIP, raw.fPort) then
          Except.ok ("directory", nickRes.1, { counts with directory := counts.directory + 1 })
        else
          Except.ok ("outbound", nickRes.1, { counts with outbound := counts.outbound + 1 })

/-- The netstat-processing loop of `reset`: classify each entry, attach a
country code (substituting `"??"` and a one-time warning on geoip failure),
attach the carried-over or current connection time, and accumulate the record.
An uncaught exception aborts the loop, discarding the accumulated temporaries
but keeping the cache mutations made so far. -/
def processNetstat (env : Env) (connTimes : List ((String × String) × Nat)) :
    List RawConn → PanelState → List ConnEntry → Counts →
      PanelState × List ConnEntry × Counts × Option PyError
  | [], st, conns, counts => (st, conns, counts, none)
  | raw :: rest, st, conns, counts =>
    match classifyEntry env st raw counts with
    | Except.error (st', e) => (st', conns, counts, some e)
    | Except.ok (ty, st', counts') =>
      let countryCode := (env.geoip raw.fIP).getD "??"
      let st'' :=
        if (env.geoip raw.fIP).isSome then st'
        else if st'.providedGeoipWarning then st'
        else { st' with
          providedGeoipWarning := true,
          log := st'.log ++ ["Tor geoip database is unavailable."] }
      let connTime := (dictLookup connTimes (raw.fIP, raw.fPort)).getD env.now
      processNetstat env connTimes rest st''
        (conns ++ [{ type := ty, lIP := raw.lIP, lPort := raw.lPort,
                     fIP := raw.fIP, fPort := raw.fPort,
                     country := countryCode, time := connTime }])
        counts'

/-- The client-connection-cache recomputation at the top of `reset`: only an
invalidated (`None`) cache is recomputed, and only when not paused. -/
def resetClientCache (st : PanelState) (env : Env) : PanelState :=
  if st.clientConnectionCache = none ∧ st.isPaused = false then
    { st with clientConnectionCache := some env.clientConnections }
  else st

/-- The snapshot whose connection times are carried over by `reset`: the live
snapshot when running live, the buffered one while paused. -/
def resetPrev (st : PanelState) : List ConnEntry :=
  if st.isPaused = false then st.connections else st.connectionsBuffer

/-- The localhost-record synthesis of `reset`, together with the
`lastUpdate` stamp taken immediately after it: when address, OR port and
fingerprint are all obtainable, record the localhost entry (with its own
silent geoip fallback and carried-over connection time) and append it to the
temporaries; otherwise clear `localhostEntry`. -/
def resetSelf (env : Env) (connTimes : List ((String × String) × Nat))
    (st : PanelState) (conns : List ConnEntry) : PanelState × List ConnEntry :=
  match env.selfInfo with
  | some si =>
    let selfCountryCode := (env.geoip si.1).getD "??"
    let connTime := (dictLookup connTimes (si.1, si.2.1)).getD env.now
    let entry : ConnEntry :=
      { type := "localhost", lIP := si.1, lPort := si.2.1,
        fIP := si.1, fPort := si.2.1,
        country := selfCountryCode, time := connTime }
    ({ st with localhostEntry := some (entry, si.2.2), lastUpdate := (env.now : Int) },
     conns ++ [entry])
  | none => ({ st with localhostEntry := none, lastUpdate := (env.now : Int) }, conns)

/-- The final assignment of `reset`: while paused only the buffer is written;
live, the snapshot and counts are published and, outside the hostname display
mode, re-sorted. -/
def resetPublish (st : PanelState) (conns : List ConnEntry) (counts : Counts) : PanelState :=
  if st.isPaused then { st with connectionsBuffer := conns }
  else
    let stPub := { st with connections := conns, connectionCount := counts }
    if stPub.listingType ≠ LIST_HOSTNAME then sortConnections stPub else stPub

/-- The `connTimes` mapping computed by `reset` (after the client-cache
recomputation, whose updates do not affect the snapshots read here). -/
def resetTimes (st0 : PanelState) (env : Env) : List ((String × String) × Nat) :=
  buildConnTimes (resetPrev (resetClientCache st0 env))

/-- The netstat-processing phase of `reset`, started on the state left by the
client-cache recomputation, with empty temporaries. -/
def resetProc (st0 : PanelState) (env : Env) (raws : List RawConn) :
    PanelState × List ConnEntry × Counts × Option PyError :=
  processNetstat env (resetTimes st0 env) raws (resetClientCache st0 env) [] ⟨0, 0, 0, 0, 0⟩

/-- Source `reset`: reloads netstat results.  Returns the updated state and
the exception escaping the method, if any (the source's `finally` only
releases locks; state mutated before an exception stays mutated). -/
def reset (st0 : PanelState) (env : Env) : PanelState × Option PyError :=
  if st0.pid = false then (st0, none)
  else
    let st := resetClientCache st0 env
    match env.netstat with
    | none =>
      ({ st with log := st.log ++ ["Unable to query netstat for new connections"] }, none)
    | some raws =>
      let r := resetProc st0 env raws
      match r.2.2.2 with
      | some e => (r.1, some e)
      | none =>
        let ws := resetSelf env (resetTimes st0 env) r.1 r.2.1
        (resetPublish ws.1 ws.2 r.2.2.1, none)

/-- Source `setPaused`: a no-op when the flag already has the requested value;
pausing records the pause time and copies `connections` into the buffer;
resuming copies the buffer back into `connections` (without touching
`connectionCount`). -/
def setPaused (st : PanelState) (isPause : Bool) (now : Nat) : PanelState :=
  if isPause = st.isPaused then st
  else if isPause then
    { st with isPaused := true, pauseTime := now, connectionsBuffer := st.connections }
  else
    { st with isPaused := false, connections := st.connectionsBuffer }

/-- Source `circ_status_event`: invalidates the client-connection cache. -/
def circ_status_event (st : PanelState) : PanelState :=
  { st with clientConnectionCache := none }

/-- The cache purge at the top of `new_desc_event`'s loop body: every
fingerprint-cache entry whose value is the updated fingerprint is deleted,
along with the nickname-cache entries under the same keys. -/
def purgeFingerprint (st : PanelState) (fingerprint : String) : PanelState :=
  if st.fingerprintLookupCache.any (fun kv => kv.2 == fingerprint) then
    let invalidEntries :=
      (st.fingerprintLookupCache.filter (fun kv => kv.2 == fingerprint)).map (fun kv => kv.1)
    { st with
      fingerprintLookupCache :=
        st.fingerprintLookupCache.filter (fun kv => !(kv.2 == fingerprint)),
      nicknameLookupCache :=
        st.nicknameLookupCache.filter (fun kv => !(invalidEntries.contains kv.1)) }
  else st

/-- The `fingerprintMappings` update at the bottom of `new_desc_event`'s loop
body: at the refreshed document's address, the first existing triple with the
same OR port (if any) is removed, then the refreshed triple is appended; other
addresses are not visited. -/
def updateMapping (st : PanelState) (ns : NSEntry) : PanelState :=
  match dictLookup st.fingerprintMappings ns.ip with
  | some entries =>
    let entries :=
      match entries.find? (fun t => t.1 == ns.orport) with
      | some orportMatch => entries.erase orportMatch
      | none => entries
    { st with fingerprintMappings :=
        (dictInsert st.fingerprintMappings ns.ip
          (entries ++ [(ns.orport, ns.idhex, ns.nickname)])) }
  | none =>
    { st with fingerprintMappings :=
        (dictInsert st.fingerprintMappings ns.ip [(ns.orport, ns.idhex, ns.nickname)]) }

/-- The per-fingerprint loop of `new_desc_event`.  The Boolean reports whether
the loop ran to completion: a consensus-lookup failure or a multi-record
anomaly executes `return`, leaving the remaining fingerprints unprocessed and
skipping the final sort; an empty consensus reply raises `IndexError`. -/
def newDescLoop (env : Env) : List String → PanelState → PanelState × Option PyError × Bool
  | [], st => (st, none, true)
  | fingerprint :: rest, st =>
    let st := purgeFingerprint st fingerprint
    match env.networkStatus fingerprint with
    | none => (st, none, false)
    | some nsData =>
      if nsData.length > 1 then
        ({ st with log :=
            st.log ++ ["Multiple consensus entries for fingerprint: " ++ fingerprint] },
         none, false)
      else
        match nsData with
        | [] => (st, some PyError.indexError, false)
        | nsEntry :: _ => newDescLoop env rest (updateMapping st nsEntry)

/-- Source `new_desc_event`: invalidates the orconn-status cache, processes
each updated fingerprint, and re-sorts on normal completion when the display
mode is not the hostname listing. -/
def new_desc_event (st : PanelState) (env : Env) (idlist : List String) :
    PanelState × Option PyError :=
  let st := { st with orconnStatusCacheValid := false }
  match newDescLoop env idlist st with
  | (st', e, completed) =>
    if completed then
      (if st'.listingType ≠ LIST_HOSTNAME then sortConnections st' else st', none)
    else (st', e)

/-- A minimal live panel state: standard ports, raw-address listing, default
sort ordering, empty caches and snapshot, valid (empty) client-set cache. -/
def baseState : PanelState :=
  { pid := true, orPort := "9001", dirPort := "0", controlPort := "9051",
    listingType := LIST_IP,
    sortOrdering := [ORD_TYPE, ORD_FOREIGN_LISTING, ORD_FOREIGN_PORT],
    localhostEntry := none, fingerprintLookupCache := [], nicknameLookupCache := [],
    fingerprintMappings := [], orconnStatusCache := none, orconnStatusCacheValid := true,
    clientConnectionCache := some [], providedGeoipWarning := false, isPaused := false,
    pauseTime := 0, connectionsBuffer := [], connections := [],
    connectionCount := ⟨0, 0, 0, 0, 0⟩, lastUpdate := -1, log := [] }

/-- A quiet environment: empty netstat, geoip always "de", every protocol
query failing or empty. -/
def envQuiet : Env :=
  { now := 200, netstat := some [], clientConnections := [],
    geoip := fun _ => some "de", orconnStatus := none, descDown := fun _ => none,
    networkStatus := fun _ => none, selfInfo := none }

/-- One outbound-looking netstat entry (local port matching none of the
configured ports, foreign endpoint not in the directory allowlist). -/
def rawOutbound : RawConn :=
  { lIP := "127.0.0.1", lPort := "40000", fIP := "5.5.5.5", fPort := "443" }

/-- Environment whose netstat query yields exactly `rawOutbound`. -/
def envOneConn : Env :=
  { envQuiet with netstat := some [rawOutbound] }

/-- State with a single consensus entry for address 1.2.3.4, port 9001,
fingerprint FPA, nickname relayA. -/
def stOneRelay : PanelState :=
  { baseState with fingerprintMappings := [("1.2.3.4", [(9001, "FPA", "relayA")])] }

/-- Environment resolving fingerprint FPA to its consensus document. -/
def envOneRelay : Env :=
  { envQuiet with networkStatus := fun f =>
      if f = "FPA" then some [{ ip := "1.2.3.4", orport := 9001, idhex := "FPA", nickname := "relayA" }]
      else none }

/-- State whose Identity Index lists fingerprint FPX at address 1.1.1.1. -/
def stIndexOld : PanelState :=
  { baseState with fingerprintMappings := [("1.1.1.1", [(80, "FPX", "nickX")])] }

/-- Environment whose refreshed document for FPX moves it to address 2.2.2.2. -/
def envMovedRelay : Env :=
  { envQuiet with networkStatus := fun f =>
      if f = "FPX" then some [{ ip := "2.2.2.2", orport := 80, idhex := "FPX", nickname := "nickX" }]
      else none }

/-- Paused state whose client-connection cache has been invalidated (as
`circ_status_event` leaves it). -/
def stPausedInvalidated : PanelState :=
  { baseState with isPaused := true, clientConnectionCache := none }

/-- A record first seen at time 10 (the longer-lived of the two samples). -/
def entryOlder : ConnEntry :=
  { type := "outbound", lIP := "10.0.0.1", lPort := "50000",
    fIP := "2.2.2.2", fPort := "443", country := "de", time := 10 }

/-- A record first seen at time 20 (the shorter-lived of the two samples). -/
def entryNewer : ConnEntry :=
  { type := "outbound", lIP := "10.0.0.1", lPort := "50001",
    fIP := "3.3.3.3", fPort := "443", country := "de", time := 20 }

/-- A record whose foreign address is the dotted quad 0.0.1.0. -/
def entryIpA : ConnEntry :=
  { type := "outbound", lIP := "10.0.0.1", lPort := "50000",
    fIP := "0.0.1.0", fPort := "443", country := "de", time := 10 }

/-- A record whose foreign address is the distinct dotted quad 0.0.0.255. -/
def entryIpB : ConnEntry :=
  { type := "outbound", lIP := "10.0.0.1", lPort := "50001",
    fIP := "0.0.0.255", fPort := "443", country := "de", time := 10 }

/-- The components of a panel state untouched by the resolver calls inside
`reset`'s loop: snapshot, counts, pause flag, buffer, display mode, ordering. -/
def stMeta (st : PanelState) :
    List ConnEntry × Counts × Bool × List ConnEntry × Nat × List Nat :=
  (st.connections, st.connectionCount, st.isPaused, st.connectionsBuffer,
   st.listingType, st.sortOrdering)

theorem stMeta_getFingerprintLookup (st : PanelState) (env : Env) (a p : String) :
    stMeta (getFingerprintLookup st env a p).2 = stMeta st := by
  rcases hd : dictLookup st.fingerprintLookupCache (a, PyPort.int (pyInt p)) with _ | v <;>
    simp [getFingerprintLookup, hd, stMeta]

theorem stMeta_getFingerprint (st : PanelState) (env : Env) (a p : String) :
    stMeta (getFingerprint st env a p).2 = stMeta st := by
  unfold getFingerprint
  split
  · split
    · rfl
    · exact stMeta_getFingerprintLookup st env a p
  · exact stMeta_getFingerprintLookup st env a p

theorem stMeta_getNickname (st : PanelState) (env : Env) (a p : String) :
    stMeta (getNickname st env a p).1 = stMeta st := by
  have hfp := stMeta_getFingerprint st env a p
  simp only [getNickname]
  split
  · rfl
  · split
    · split
      · exact hfp
      · exact hfp
      · exact hfp
    · exact hfp

theorem stMeta_classifyEntry_ok (env : Env) (st : PanelState) (raw : RawConn)
    (counts : Counts) (ty : String) (st' : PanelState) (counts' : Counts)
    (h : classifyEntry env st raw counts = Except.ok (ty, st', counts')) :
    stMeta st' = stMeta st := by
  have hfp := stMeta_getFingerprint st env raw.fIP raw.fPort
  have hnick :=
    stMeta_getNickname (getFingerprint st env raw.fIP raw.fPort).2 env raw.fIP raw.fPort
  simp only [classifyEntry] at h
  split at h
  · simp only [Except.ok.injEq, Prod.mk.injEq] at h
    obtain ⟨-, h2, -⟩ := h
    subst h2
    rfl
  · split at h
    · simp only [Except.ok.injEq, Prod.mk.injEq] at h
      obtain ⟨-, h2, -⟩ := h
      subst h2
      rfl
    · split at h
      · exact Except.noConfusion h
      · split at h
        · exact Except.noConfusion h
        · split at h <;>
          · first
            | (simp only [Except.ok.injEq, Prod.mk.injEq] at h
               obtain ⟨-, h2, -⟩ := h
               subst h2
               exact hnick.trans hfp)
            | (split at h <;>
                (simp only [Except.ok.injEq, Prod.mk.injEq] at h
                 obtain ⟨-, h2, -⟩ := h
                 subst h2
                 exact hnick.trans hfp))

theorem stMeta_classifyEntry_error (env : Env) (st : PanelState) (raw : RawConn)
    (counts : Counts) (st' : PanelState) (e : PyError)
    (h : classifyEntry env st raw counts = Except.error (st', e)) :
    stMeta st' = stMeta st := by
  have hfp := stMeta_getFingerprint st env raw.fIP raw.fPort
  have hnick :=
    stMeta_getNickname (getFingerprint st env raw.fIP raw.fPort).2 env raw.fIP raw.fPort
  simp only [classifyEntry] at h
  split at h
  · exact Except.noConfusion h
  · split at h
    · exact Except.noConfusion h
    · split at h
      · simp only [Except.error.injEq, Prod.mk.injEq] at h
        obtain ⟨h1, -⟩ := h
        subst h1
        exact hnick.trans hfp
      · split at h
        · simp only [Except.error.injEq, Prod.mk.injEq] at h
          obtain ⟨h1, -⟩ := h
          subst h1
          exact hnick.trans hfp
        · split at h
          · exact Except.noConfusion h
          · split at h
            · exact Except.noConfusion h
            · exact Except.noConfusion h

theorem stMeta_processNetstat (env : Env) (ct : List ((String × String) × Nat)) :
    ∀ (raws : List RawConn) (st : PanelState) (conns : List ConnEntry) (counts : Counts),
      stMeta (processNetstat env ct raws st conns counts).1 = stMeta st := by
  intro raws
  induction raws with
  | nil => intro st conns counts; rfl
  | cons raw rest ih =>
    intro st conns counts
    simp only [processNetstat]
    split
    · next st' e h => exact stMeta_classifyEntry_error env st raw counts st' e h
    · next ty st' counts' h =>
      refine (ih _ _ _).trans ?_
      have hmeta := stMeta_classifyEntry_ok env st raw counts ty st' counts' h
      split
      · exact hmeta
      · split
        · exact hmeta
        · exact hmeta

theorem dictLookup_dictInsert_self {α β : Type} [DecidableEq α]
    (d : List (α × β)) (k : α) (v : β) :
    dictLookup (dictInsert d k v) k = some v := by
  induction d with
  | nil => simp [dictInsert, dictLookup]
  | cons kv rest ih =>
    by_cases hk : kv.1 = k
    · simp [dictInsert, dictLookup, hk]
    · simp [dictInsert, dictLookup, hk, ih]

theorem dictLookup_dictInsert_ne {α β : Type} [DecidableEq α]
    (d : List (α × β)) (k k' : α) (v : β) (h : k' ≠ k) :
    dictLookup (dictInsert d k v) k' = dictLookup d k' := by
  induction d with
  | nil =>
    have hne : ¬ k = k' := fun he => h he.symm
    simp [dictInsert, dictLookup, hne]
  | cons kv rest ih =>
    by_cases hk : kv.1 = k
    · simp only [dictInsert, if_pos hk, dictLookup]
      have : ¬ (k = k') := fun he => h he.symm
      simp [hk, this]
    · simp only [dictInsert, if_neg hk, dictLookup, ih]

theorem buildConnTimesAux_absent (p : String × String) :
    ∀ (l : List ConnEntry) (acc : List ((String × String) × Nat)),
      (∀ e ∈ l, (e.fIP, e.fPort) ≠ p) →
      dictLookup (l.foldl (fun d e => dictInsert d (e.fIP, e.fPort) e.time) acc) p
        = dictLookup acc p := by
  intro l
  induction l with
  | nil => intro acc _; rfl
  | cons e rest ih =>
    intro acc hall
    simp only [List.foldl_cons]
    rw [ih _ (fun x hx => hall x (List.mem_cons_of_mem e hx))]
    exact dictLookup_dictInsert_ne acc (e.fIP, e.fPort) p e.time
      (fun he => hall e (List.mem_cons_self e rest) he.symm)

theorem buildConnTimesAux_uniform (p : String × String) (t : Nat) :
    ∀ (l : List ConnEntry) (acc : List ((String × String) × Nat)),
      (∀ e ∈ l, (e.fIP, e.fPort) = p → e.time = t) →
      ((∃ e ∈ l, (e.fIP, e.fPort) = p) ∨ dictLookup acc p = some t) →
      dictLookup (l.foldl (fun d e => dictInsert d (e.fIP, e.fPort) e.time) acc) p
        = some t := by
  intro l
  induction l with
  | nil =>
    intro acc _ hbase
    rcases hbase with ⟨e, he, _⟩ | hacc
    · exact absurd he (List.not_mem_nil e)
    · exact hacc
  | cons e rest ih =>
    intro acc hall hbase
    simp only [List.foldl_cons]
    by_cases hp : (e.fIP, e.fPort) = p
    · refine ih _ (fun x hx hxp => hall x (List.mem_cons_of_mem e hx) hxp) (Or.inr ?_)
      rw [hp, hall e (List.mem_cons_self e rest) hp]
      exact dictLookup_dictInsert_self acc p t
    · refine ih _ (fun x hx hxp => hall x (List.mem_cons_of_mem e hx) hxp) ?_
      rcases hbase with ⟨x, hx, hxp⟩ | hacc
      · rcases List.mem_cons.mp hx with rfl | hx'
        · exact absurd hxp hp
        · exact Or.inl ⟨x, hx', hxp⟩
      · refine Or.inr ?_
        rw [dictLookup_dictInsert_ne acc (e.fIP, e.fPort) p e.time (fun he => hp he.symm)]
        exact hacc

theorem buildConnTimes_absent (l : List ConnEntry) (p : String × String)
    (h : ∀ e ∈ l, (e.fIP, e.fPort) ≠ p) :
    dictLookup (buildConnTimes l) p = none := by
  unfold buildConnTimes
  rw [buildConnTimesAux_absent p l [] h]
  rfl

theorem buildConnTimes_uniform (l : List ConnEntry) (p : String × String) (t : Nat)
    (hex : ∃ e ∈ l, (e.fIP, e.fPort) = p)
    (hall : ∀ e ∈ l, (e.fIP, e.fPort) = p → e.time = t) :
    dictLookup (buildConnTimes l) p = some t :=
  buildConnTimesAux_uniform p t l [] hall (Or.inl hex)

theorem pyInsert_perm (cmpf : ConnEntry → ConnEntry → Int) (x : ConnEntry) :
    ∀ l : List ConnEntry, (pyInsert cmpf x l).Perm (x :: l) := by
  intro l
  induction l with
  | nil => simp [pyInsert]
  | cons y ys ih =>
    simp only [pyInsert]
    split
    · exact List.Perm.refl _
    · exact (ih.cons y).trans (List.Perm.swap x y ys)

theorem pySortAux_perm (cmpf : ConnEntry → ConnEntry → Int) :
    ∀ (l acc : List ConnEntry),
      (l.foldl (fun a x => pyInsert cmpf x a) acc).Perm (acc ++ l) := by
  intro l
  induction l with
  | nil => intro acc; simp
  | cons x xs ih =>
    intro acc
    simp only [List.foldl_cons]
    refine (ih (pyInsert cmpf x acc)).trans ?_
    refine (((pyInsert_perm cmpf x acc).append_right xs).trans ?_)
    exact List.perm_middle.symm

theorem pySort_perm (cmpf : ConnEntry → ConnEntry → Int) (l : List ConnEntry) :
    (pySort cmpf l).Perm l := by
  simpa using pySortAux_perm cmpf l []

theorem sortConnections_connections_perm (st : PanelState) :
    (sortConnections st).connections.Perm st.connections :=
  pySort_perm _ st.connections

theorem sortConnections_connectionCount (st : PanelState) :
    (sortConnections st).connectionCount = st.connectionCount := rfl

theorem classifyEntry_ok_counts (env : Env) (st : PanelState) (raw : RawConn)
    (counts : Counts) (ty : String) (st' : PanelState) (counts' : Counts)
    (h : classifyEntry env st raw counts = Except.ok (ty, st', counts')) :
    counts'.sum = counts.sum + 1 ∧ (ty == "localhost") = false := by
  simp only [classifyEntry] at h
  split at h
  · simp only [Except.ok.injEq, Prod.mk.injEq] at h
    obtain ⟨h1, -, h3⟩ := h
    subst h1
    subst h3
    exact ⟨by simp [Counts.sum]; omega, by decide⟩
  · split at h
    · simp only [Except.ok.injEq, Prod.mk.injEq] at h
      obtain ⟨h1, -, h3⟩ := h
      subst h1
      subst h3
      exact ⟨by simp [Counts.sum]; omega, by decide⟩
    · split at h
      · exact Except.noConfusion h
      · split at h
        · exact Except.noConfusion h
        · split at h
          · simp only [Except.ok.injEq, Prod.mk.injEq] at h
            obtain ⟨h1, -, h3⟩ := h
            subst h1
            subst h3
            exact ⟨by simp [Counts.sum]; omega, by decide⟩
          · split at h <;>
            · simp only [Except.ok.injEq, Prod.mk.injEq] at h
              obtain ⟨h1, -, h3⟩ := h
              subst h1
              subst h3
              exact ⟨by simp [Counts.sum]; omega, by decide⟩

theorem processNetstat_counts (env : Env) (ct : List ((String × String) × Nat)) :
    ∀ (raws : List RawConn) (st : PanelState) (conns : List ConnEntry) (counts : Counts),
      (processNetstat env ct raws st conns counts).2.2.2 = none →
      ((processNetstat env ct raws st conns counts).2.1.countP
          (fun e => !(e.type == "localhost"))) + counts.sum
        = ((processNetstat env ct raws st conns counts).2.2.1).sum
            + conns.countP (fun e => !(e.type == "localhost")) := by
  intro raws
  induction raws with
  | nil =>
    intro st conns counts _
    simp [processNetstat, Nat.add_comm]
  | cons raw rest ih =>
    intro st conns counts hok
    simp only [processNetstat] at hok ⊢
    split at hok
    · exact Option.noConfusion hok
    · next ty st' counts' h =>
      obtain ⟨hsum, hty⟩ :=
        classifyEntry_ok_counts env st raw counts ty st' counts' h
      have := ih _
        (conns ++ [{ type := ty, lIP := raw.lIP, lPort := raw.lPort,
                     fIP := raw.fIP, fPort := raw.fPort,
                     country := (env.geoip raw.fIP).getD "??",
                     time := (dictLookup ct (raw.fIP, raw.fPort)).getD env.now }])
        counts' hok
      have hstep : List.countP (fun e => !(e.type == "localhost"))
            (conns ++ [{ type := ty, lIP := raw.lIP, lPort := raw.lPort,
                         fIP := raw.fIP, fPort := raw.fPort,
                         country := (env.geoip raw.fIP).getD "??",
                         time := (dictLookup ct (raw.fIP, raw.fPort)).getD env.now }])
          = List.countP (fun e => !(e.type == "localhost")) conns + 1 := by
        simp [List.countP_append, List.countP_cons, hty]
      rw [hstep] at this
      omega

theorem processNetstat_time (env : Env) (ct : List ((String × String) × Nat)) :
    ∀ (raws : List RawConn) (st : PanelState) (conns : List ConnEntry) (counts : Counts),
      ∀ e ∈ (processNetstat env ct raws st conns counts).2.1,
        e ∈ conns ∨ e.time = (dictLookup ct (e.fIP, e.fPort)).getD env.now := by
  intro raws
  induction raws with
  | nil =>
    intro st conns counts e he
    exact Or.inl he
  | cons raw rest ih =>
    intro st conns counts e he
    simp only [processNetstat] at he
    split at he
    · exact Or.inl he
    · next ty st' counts' h =>
      rcases ih _ _ _ e he with hmem | htime
      · rcases List.mem_append.mp hmem with hmem' | hself
        · exact Or.inl hmem'
        · refine Or.inr ?_
          rcases List.mem_singleton.mp hself with rfl
          rfl
      · exact Or.inr htime

theorem stMeta_connections {A B : PanelState} (h : stMeta A = stMeta B) :
    A.connections = B.connections :=
  congrArg (fun t => t.1) h

theorem stMeta_connectionCount {A B : PanelState} (h : stMeta A = stMeta B) :
    A.connectionCount = B.connectionCount :=
  congrArg (fun t => t.2.1) h

theorem stMeta_isPaused {A B : PanelState} (h : stMeta A = stMeta B) :
    A.isPaused = B.isPaused :=
  congrArg (fun t => t.2.2.1) h

theorem stMeta_connectionsBuffer {A B : PanelState} (h : stMeta A = stMeta B) :
    A.connectionsBuffer = B.connectionsBuffer :=
  congrArg (fun t => t.2.2.2.1) h

theorem stMeta_listingType {A B : PanelState} (h : stMeta A = stMeta B) :
    A.listingType = B.listingType :=
  congrArg (fun t => t.2.2.2.2.1) h

theorem stMeta_resetClientCache (st0 : PanelState) (env : Env) :
    stMeta (resetClientCache st0 env) = stMeta st0 := by
  unfold resetClientCache
  split <;> rfl

theorem stMeta_resetSelf (env : Env) (ct : List ((String × String) × Nat))
    (st : PanelState) (conns : List ConnEntry) :
    stMeta (resetSelf env ct st conns).1 = stMeta st := by
  unfold resetSelf
  cases env.selfInfo <;> rfl

theorem stMeta_resetProc (st0 : PanelState) (env : Env) (raws : List RawConn) :
    stMeta (resetProc st0 env raws).1 = stMeta st0 :=
  (stMeta_processNetstat env (resetTimes st0 env) raws (resetClientCache st0 env)
      [] ⟨0, 0, 0, 0, 0⟩).trans (stMeta_resetClientCache st0 env)

theorem resetPublish_paused (st : PanelState) (conns : List ConnEntry) (counts : Counts)
    (h : st.isPaused = true) :
    resetPublish st conns counts = { st with connectionsBuffer := conns } := by
  unfold resetPublish
  rw [if_pos h]

theorem resetPublish_live (st : PanelState) (conns : List ConnEntry) (counts : Counts)
    (h : st.isPaused = false) :
    (resetPublish st conns counts).connections.Perm conns ∧
      (resetPublish st conns counts).connectionCount = counts := by
  unfold resetPublish
  rw [if_neg (by simp [h])]
  dsimp only
  split
  · exact ⟨sortConnections_connections_perm _, rfl⟩
  · exact ⟨List.Perm.refl _, rfl⟩

theorem resetClientCache_log (st0 : PanelState) (env : Env) :
    (resetClientCache st0 env).log = st0.log := by
  unfold resetClientCache
  split <;> rfl

/-- C8: while the panel is paused, a refresh tick never changes the live
snapshot or the category counts — whether the tick succeeds or raises, the
`connections` list and `connectionCount` vector the live view reads are left
exactly as they were (paused refreshes write only the buffer). -/
theorem c8_paused_refresh_preserves_view (st : PanelState) (env : Env)
    (hp : st.isPaused = true) :
    (reset st env).1.connections = st.connections ∧
    (reset st env).1.connectionCount = st.connectionCount := by
  by_cases hpid : st.pid = false
  · simp [reset, hpid]
  · have hcc := stMeta_resetClientCache st env
    simp only [reset]
    rw [if_neg hpid]
    rcases hnet : env.netstat with _ | raws
    · simp only [hnet]
      exact ⟨stMeta_connections hcc, stMeta_connectionCount hcc⟩
    · simp only [hnet]
      split
      · exact ⟨stMeta_connections (stMeta_resetProc st env raws),
               stMeta_connectionCount (stMeta_resetProc st env raws)⟩
      · have hM : stMeta (resetSelf env (resetTimes st env)
            (resetProc st env raws).1 (resetProc st env raws).2.1).1 = stMeta st :=
          (stMeta_resetSelf _ _ _ _).trans (stMeta_resetProc st env raws)
        rw [resetPublish_paused _ _ _ ((stMeta_isPaused hM).trans hp)]
        have h1 := stMeta_connections hM
        have h2 := stMeta_connectionCount hM
        exact ⟨h1, h2⟩

/-- Witness for C8 at a concrete paused state and a refresh tick that
produces a new (buffered) snapshot. -/
theorem c8_paused_refresh_preserves_view_witness :
    (reset { baseState with isPaused := true } envOneConn).1.connections
        = ({ baseState with isPaused := true } : PanelState).connections
    ∧ (reset { baseState with isPaused := true } envOneConn).1.connectionCount
        = ({ baseState with isPaused := true } : PanelState).connectionCount :=
  c8_paused_refresh_preserves_view { baseState with isPaused := true } envOneConn rfl

/-- C9: when the netstat query fails, `reset` emits the warning and returns
without raising, leaving the published snapshot, the category counts and the
pause buffer exactly as they were before the tick. -/
theorem c9_netstat_failure_atomic (st : PanelState) (env : Env)
    (hpid : st.pid = true) (hnet : env.netstat = none) :
    (reset st env).2 = none
    ∧ (reset st env).1.connections = st.connections
    ∧ (reset st env).1.connectionCount = st.connectionCount
    ∧ (reset st env).1.connectionsBuffer = st.connectionsBuffer
    ∧ (reset st env).1.log = st.log ++ ["Unable to query netstat for new connections"] := by
  have hcc := stMeta_resetClientCache st env
  have hl := resetClientCache_log st env
  simp only [reset]
  rw [if_neg (by simp [hpid])]
  rw [hnet]
  exact ⟨rfl, stMeta_connections hcc, stMeta_connectionCount hcc,
    stMeta_connectionsBuffer hcc, by simp [hl]⟩

/-- Witness for C9 at a concrete live state and a failing netstat query. -/
theorem c9_netstat_failure_atomic_witness :
    (reset baseState { envQuiet with netstat := none }).2 = none
    ∧ (reset baseState { envQuiet with netstat := none }).1.connections = baseState.connections
    ∧ (reset baseState { envQuiet with netstat := none }).1.connectionCount
        = baseState.connectionCount
    ∧ (reset baseState { envQuiet with netstat := none }).1.connectionsBuffer
        = baseState.connectionsBuffer
    ∧ (reset baseState { envQuiet with netstat := none }).1.log
        = baseState.log ++ ["Unable to query netstat for new connections"] :=
  c9_netstat_failure_atomic baseState { envQuiet with netstat := none } rfl rfl

theorem resetSelf_countP (env : Env) (ct : List ((String × String) × Nat))
    (st : PanelState) (conns : List ConnEntry) :
    ((resetSelf env ct st conns).2).countP (fun e => !(e.type == "localhost"))
      = conns.countP (fun e => !(e.type == "localhost")) := by
  unfold resetSelf
  rcases env.selfInfo with _ | si <;> simp [List.countP_append, List.countP_cons]

/-- C1 (amended): after every successful live (unpaused) refresh, the sum of
the five category counters equals the number of non-localhost records in the
published snapshot. -/
theorem c1_live_refresh_counts (st : PanelState) (env : Env) (raws : List RawConn)
    (hpid : st.pid = true) (hlive : st.isPaused = false)
    (hnet : env.netstat = some raws) (hok : (reset st env).2 = none) :
    ((reset st env).1.connectionCount).sum
      = (reset st env).1.connections.countP (fun e => !(e.type == "localhost")) := by
  simp only [reset] at hok ⊢
  rw [if_neg (by simp [hpid])] at hok ⊢
  simp only [hnet] at hok ⊢
  rcases hE : (resetProc st env raws).2.2.2 with _ | err
  · simp only [hE]
    have hM : stMeta (resetSelf env (resetTimes st env)
        (resetProc st env raws).1 (resetProc st env raws).2.1).1 = stMeta st :=
      (stMeta_resetSelf _ _ _ _).trans (stMeta_resetProc st env raws)
    obtain ⟨hperm, hcnt⟩ :=
      resetPublish_live (resetSelf env (resetTimes st env)
          (resetProc st env raws).1 (resetProc st env raws).2.1).1
        (resetSelf env (resetTimes st env)
          (resetProc st env raws).1 (resetProc st env raws).2.1).2
        (resetProc st env raws).2.2.1
        ((stMeta_isPaused hM).trans hlive)
    rw [hcnt]
    rw [List.Perm.countP_eq _ hperm]
    rw [resetSelf_countP]
    have hc := processNetstat_counts env (resetTimes st env) raws
      (resetClientCache st env) [] ⟨0, 0, 0, 0, 0⟩ hE
    simpa [Counts.sum] using hc.symm
  · rw [hE] at hok
    simp at hok

/-- Witness for C1's amended theorem at a concrete live refresh producing one
outbound record. -/
theorem c1_live_refresh_counts_witness :
    ((reset baseState envOneConn).1.connectionCount).sum
      = (reset baseState envOneConn).1.connections.countP
          (fun e => !(e.type == "localhost")) :=
  c1_live_refresh_counts baseState envOneConn [rawOutbound] rfl rfl rfl (by decide)

/-- Counterexample to C1 as stated: pausing, refreshing (which buffers one new
outbound record), and resuming yields a snapshot with one non-localhost record
while the counters still sum to zero — the invariant does not survive
`setPaused(False)` because resume restores the buffer without recomputing the
counts. -/
theorem c1_counterexample :
    ¬ ((setPaused (reset (setPaused baseState true 100) envOneConn).1 false 300).connectionCount.sum
        = ((setPaused (reset (setPaused baseState true 100) envOneConn).1 false 300).connections.countP
            (fun e => !(e.type == "localhost")))) := by
  decide

theorem resetSelf_time (env : Env) (ct : List ((String × String) × Nat))
    (st : PanelState) (conns : List ConnEntry) :
    ∀ e ∈ (resetSelf env ct st conns).2,
      e ∈ conns ∨ e.time = (dictLookup ct (e.fIP, e.fPort)).getD env.now := by
  unfold resetSelf
  rcases env.selfInfo with _ | si
  · intro e he
    exact Or.inl he
  · intro e he
    rcases List.mem_append.mp he with h | h
    · exact Or.inl h
    · rcases List.mem_singleton.mp h with rfl
      exact Or.inr rfl

theorem resetPrev_resetClientCache (st : PanelState) (env : Env) :
    resetPrev (resetClientCache st env)
      = if st.isPaused then st.connectionsBuffer else st.connections := by
  have h := stMeta_resetClientCache st env
  unfold resetPrev
  rw [stMeta_isPaused h, stMeta_connections h, stMeta_connectionsBuffer h]
  cases hpp : st.isPaused <;> simp

theorem reset_snapshot_time (st : PanelState) (env : Env) (raws : List RawConn)
    (hpid : st.pid = true) (hnet : env.netstat = some raws)
    (hok : (reset st env).2 = none) :
    ∀ e ∈ (if st.isPaused then (reset st env).1.connectionsBuffer
           else (reset st env).1.connections),
      e.time = (dictLookup (resetTimes st env) (e.fIP, e.fPort)).getD env.now := by
  simp only [reset] at hok
  rw [if_neg (by simp [hpid])] at hok
  simp only [hnet] at hok
  rcases hE : (resetProc st env raws).2.2.2 with _ | err
  · have hM : stMeta (resetSelf env (resetTimes st env)
        (resetProc st env raws).1 (resetProc st env raws).2.1).1 = stMeta st :=
      (stMeta_resetSelf _ _ _ _).trans (stMeta_resetProc st env raws)
    have hself := resetSelf_time env (resetTimes st env)
      (resetProc st env raws).1 (resetProc st env raws).2.1
    have hproc := processNetstat_time env (resetTimes st env) raws
      (resetClientCache st env) [] ⟨0, 0, 0, 0, 0⟩
    have hrule : ∀ x ∈ (resetSelf env (resetTimes st env)
        (resetProc st env raws).1 (resetProc st env raws).2.1).2,
        x.time = (dictLookup (resetTimes st env) (x.fIP, x.fPort)).getD env.now := by
      intro x hx
      rcases hself x hx with hin | ht
      · rcases hproc x hin with habs | ht'
        · exact absurd habs (List.not_mem_nil x)
        · exact ht'
      · exact ht
    intro e he
    cases hpp : st.isPaused with
    | true =>
      rw [hpp] at he
      simp only [if_true] at he
      simp only [reset] at he
      rw [if_neg (by simp [hpid])] at he
      simp only [hnet, hE] at he
      rw [resetPublish_paused _ _ _ ((stMeta_isPaused hM).trans hpp)] at he
      exact hrule e he
    | false =>
      rw [hpp] at he
      rw [if_neg (by decide)] at he
      simp only [reset] at he
      rw [if_neg (by simp [hpid])] at he
      simp only [hnet, hE] at he
      obtain ⟨hperm, -⟩ :=
        resetPublish_live (resetSelf env (resetTimes st env)
            (resetProc st env raws).1 (resetProc st env raws).2.1).1
          (resetSelf env (resetTimes st env)
            (resetProc st env raws).1 (resetProc st env raws).2.1).2
          (resetProc st env raws).2.2.1
          ((stMeta_isPaused hM).trans hpp)
      exact hrule e (hperm.mem_iff.mp he)
  · rw [hE] at hok
    simp at hok

/-- C2: time continuity of refresh.  For every record `e` of the snapshot a
successful refresh produces (the live snapshot when running live, the buffer
while paused), if no record of the previous snapshot had `e`'s foreign
(address, port) pair then `e` carries the current time, and if some previous
record had the pair (all records with that pair agreeing on their timestamp)
then `e` carries that record's first-seen timestamp unchanged. -/
theorem c2_time_continuity (st : PanelState) (env : Env) (raws : List RawConn)
    (e : ConnEntry)
    (hpid : st.pid = true) (hnet : env.netstat = some raws)
    (hok : (reset st env).2 = none)
    (hmem : e ∈ (if st.isPaused then (reset st env).1.connectionsBuffer
                 else (reset st env).1.connections)) :
    ((∀ old ∈ (if st.isPaused then st.connectionsBuffer else st.connections),
        (old.fIP, old.fPort) ≠ (e.fIP, e.fPort)) → e.time = env.now)
    ∧ (∀ old ∈ (if st.isPaused then st.connectionsBuffer else st.connections),
        (old.fIP, old.fPort) = (e.fIP, e.fPort) →
        (∀ o2 ∈ (if st.isPaused then st.connectionsBuffer else st.connections),
            (o2.fIP, o2.fPort) = (e.fIP, e.fPort) → o2.time = old.time) →
        e.time = old.time) := by
  have hrule := reset_snapshot_time st env raws hpid hnet hok e hmem
  have htimes : resetTimes st env
      = buildConnTimes (if st.isPaused then st.connectionsBuffer else st.connections) := by
    unfold resetTimes
    rw [resetPrev_resetClientCache]
  rw [htimes] at hrule
  constructor
  · intro habs
    rw [buildConnTimes_absent _ _ habs] at hrule
    exact hrule
  · intro old hold hpair huni
    rw [buildConnTimes_uniform _ _ old.time ⟨old, hold, hpair⟩ huni] at hrule
    exact hrule

/-- Witness for C2 at a concrete live refresh: the produced outbound record's
foreign pair is absent from the (empty) previous snapshot, so the theorem
yields that it is stamped with the current time. -/
theorem c2_time_continuity_witness :
    ({ type := "outbound", lIP := "127.0.0.1", lPort := "40000",
       fIP := "5.5.5.5", fPort := "443", country := "de",
       time := 200 } : ConnEntry).time = envOneConn.now := by
  have h := c2_time_continuity baseState envOneConn [rawOutbound]
    { type := "outbound", lIP := "127.0.0.1", lPort := "40000",
      fIP := "5.5.5.5", fPort := "443", country := "de", time := 200 }
    rfl rfl (by decide) (by decide)
  exact h.1 (by decide)

theorem purgeFingerprint_mappings (st : PanelState) (F : String) :
    (purgeFingerprint st F).fingerprintMappings = st.fingerprintMappings := by
  unfold purgeFingerprint
  split <;> rfl

theorem purgeFingerprint_fpCache (st : PanelState) (F : String) :
    ∀ kv ∈ (purgeFingerprint st F).fingerprintLookupCache, kv.2 ≠ F := by
  unfold purgeFingerprint
  split
  · intro kv hkv
    have := List.of_mem_filter hkv
    simpa using this
  · next hany =>
    intro kv hkv hF
    have h2 : (st.fingerprintLookupCache.any (fun kv => kv.2 == F)) = false :=
      Bool.eq_false_iff.mpr hany
    have := List.any_eq_false.mp h2 kv hkv
    simp [hF] at this

theorem updateMapping_self (st : PanelState) (ns : NSEntry) :
    (ns.orport, ns.idhex, ns.nickname)
      ∈ (dictLookup (updateMapping st ns).fingerprintMappings ns.ip).getD [] := by
  unfold updateMapping
  rcases h : dictLookup st.fingerprintMappings ns.ip with _ | entries
  · rw [dictLookup_dictInsert_self]
    simp
  · rw [dictLookup_dictInsert_self]
    simp

theorem updateMapping_other (st : PanelState) (ns : NSEntry) (a : String) (ha : a ≠ ns.ip) :
    dictLookup (updateMapping st ns).fingerprintMappings a
      = dictLookup st.fingerprintMappings a := by
  unfold updateMapping
  rcases h : dictLookup st.fingerprintMappings ns.ip with _ | entries <;>
    exact dictLookup_dictInsert_ne _ _ _ _ ha

theorem updateMapping_fpCache (st : PanelState) (ns : NSEntry) :
    (updateMapping st ns).fingerprintLookupCache = st.fingerprintLookupCache := by
  unfold updateMapping
  rcases h : dictLookup st.fingerprintMappings ns.ip with _ | entries <;> rfl

theorem sortConnections_fingerprintMappings (st : PanelState) :
    (sortConnections st).fingerprintMappings = st.fingerprintMappings := rfl

theorem sortConnections_fpCache (st : PanelState) :
    (sortConnections st).fingerprintLookupCache = st.fingerprintLookupCache := rfl

/-- C3 (amended): in the raw-address display mode, a descriptor-changed event
for fingerprint `F` whose consensus re-query returns a single document `ns`
purges the resolution caches of every entry resolving to `F`, and in the
Identity Index removes only the triple at `ns`'s address with `ns`'s OR port
before appending the refreshed triple — index entries at every other address
(including stale ones referencing `F`) are left unchanged.  The display-mode
hypothesis scopes the cache conjunct: under the fingerprint or nickname
display modes the handler's closing re-sort consults the resolver from inside
its comparators and can re-populate the fingerprint cache for `F`. -/
theorem c3_patch_behavior (st : PanelState) (env : Env) (F : String) (ns : NSEntry)
    (hns : env.networkStatus F = some [ns]) (_hlist : st.listingType = LIST_IP) :
    ((ns.orport, ns.idhex, ns.nickname)
        ∈ (dictLookup (new_desc_event st env [F]).1.fingerprintMappings ns.ip).getD [])
    ∧ (∀ kv ∈ (new_desc_event st env [F]).1.fingerprintLookupCache, kv.2 ≠ F)
    ∧ (∀ a, a ≠ ns.ip →
        dictLookup (new_desc_event st env [F]).1.fingerprintMappings a
          = dictLookup st.fingerprintMappings a) := by
  have hred : new_desc_event st env [F]
      = (if (updateMapping (purgeFingerprint { st with orconnStatusCacheValid := false } F)
              ns).listingType ≠ LIST_HOSTNAME
         then sortConnections
            (updateMapping (purgeFingerprint { st with orconnStatusCacheValid := false } F) ns)
         else updateMapping
            (purgeFingerprint { st with orconnStatusCacheValid := false } F) ns,
         none) := by
    unfold new_desc_event newDescLoop
    rw [hns]
    rfl
  rw [hred]
  dsimp only
  split
  · refine ⟨?_, ?_, ?_⟩
    · rw [sortConnections_fingerprintMappings]
      exact updateMapping_self _ ns
    · rw [sortConnections_fpCache, updateMapping_fpCache]
      exact purgeFingerprint_fpCache _ F
    · intro a ha
      rw [sortConnections_fingerprintMappings, updateMapping_other _ ns a ha,
        purgeFingerprint_mappings]
  · refine ⟨?_, ?_, ?_⟩
    · exact updateMapping_self _ ns
    · rw [updateMapping_fpCache]
      exact purgeFingerprint_fpCache _ F
    · intro a ha
      rw [updateMapping_other _ ns a ha, purgeFingerprint_mappings]

/-- Witness for C3's amended theorem: a raw-address-mode panel whose
refreshed document for FPX names address 2.2.2.2, so the refreshed triple is
inserted there, the fingerprint cache holds no entry for FPX, and the stale
index entry at 1.1.1.1 is left exactly as it was. -/
theorem c3_patch_behavior_witness :
    ((80, "FPX", "nickX")
        ∈ (dictLookup (new_desc_event stIndexOld envMovedRelay ["FPX"]).1.fingerprintMappings
            "2.2.2.2").getD [])
    ∧ (∀ kv ∈ (new_desc_event stIndexOld envMovedRelay ["FPX"]).1.fingerprintLookupCache,
        kv.2 ≠ "FPX")
    ∧ (∀ a, a ≠ "2.2.2.2" →
        dictLookup (new_desc_event stIndexOld envMovedRelay ["FPX"]).1.fingerprintMappings a
          = dictLookup stIndexOld.fingerprintMappings a) :=
  c3_patch_behavior stIndexOld envMovedRelay "FPX"
    { ip := "2.2.2.2", orport := 80, idhex := "FPX", nickname := "nickX" }
    (by decide) rfl

/-- Counterexample to C3 as stated: after the patch for FPX (whose refreshed
document moved it to 2.2.2.2), the Identity Index still holds the old entry
referencing FPX at address 1.1.1.1 — the patch did not remove index entries
referencing the fingerprint across all addresses. -/
theorem c3_counterexample :
    dictLookup (new_desc_event stIndexOld envMovedRelay ["FPX"]).1.fingerprintMappings "1.1.1.1"
        = some [(80, "FPX", "nickX")]
    ∧ dictLookup (new_desc_event stIndexOld envMovedRelay ["FPX"]).1.fingerprintMappings "2.2.2.2"
        = some [(80, "FPX", "nickX")] := by
  decide

/-- C4 (code bug): resolving the nickname for ("1.2.3.4", "9001") caches the
nickname under the raw string port while the fingerprint was cached under the
converted integer port, so the nickname-cache key set is not a subset of the
fingerprint-cache key set, contradicting the invariant asserted by the
source's own comment. -/
theorem c4_nickname_key_not_in_fingerprint_cache :
    dictLookup ((getNickname stOneRelay envOneRelay "1.2.3.4" "9001").1).nicknameLookupCache
        ("1.2.3.4", PyPort.str "9001") = some "relayA"
    ∧ dictLookup ((getNickname stOneRelay envOneRelay "1.2.3.4" "9001").1).fingerprintLookupCache
        ("1.2.3.4", PyPort.str "9001") = none
    ∧ dictLookup ((getNickname stOneRelay envOneRelay "1.2.3.4" "9001").1).fingerprintLookupCache
        ("1.2.3.4", PyPort.int 9001) = some "FPA" := by
  decide

/-- Counterexample to C5 as stated: `entryOlder` has the smaller first-seen
timestamp (the longer duration) yet the `ORD_TIME` comparator does not order
it before `entryNewer` — it returns a positive comparison. -/
theorem c5_counterexample :
    entryOlder.time < entryNewer.time ∧ ¬ (cmpTime entryOlder entryNewer < 0) := by
  decide

/-- C5 (amended): under the connection-time sort key, the record with the
larger first-seen timestamp — the shorter duration, i.e. the most recently
seen connection — is ordered first: a longer-lived record compares strictly
greater and is placed after. -/
theorem c5_time_sort_newest_first (x y : ConnEntry) (h : x.time < y.time) :
    cmpTime x y = 1 := by
  unfold cmpTime pyCmp
  have hlt : -((y.time : Int)) < -((x.time : Int)) := by omega
  rw [if_neg (by omega), if_pos hlt]

/-- Witness for C5's amended theorem at the two sample records. -/
theorem c5_time_sort_newest_first_witness :
    cmpTime entryOlder entryNewer = 1 :=
  c5_time_sort_newest_first entryOlder entryNewer (by decide)

/-- C6 (code bug): `_ipToInt` multiplies by 255 per octet, so the distinct
dotted quads 0.0.1.0 and 0.0.0.255 map to the same comparison integer and the
raw-address listing comparator ranks two records carrying them as equal,
whereas their 32-bit (base-256) values, per the spec's definition, differ. -/
theorem c6_ipToInt_not_32bit :
    _ipToInt "0.0.1.0" = _ipToInt "0.0.0.255"
    ∧ specIpToInt32 "0.0.1.0" ≠ specIpToInt32 "0.0.0.255"
    ∧ cmpForeignListing entryIpA entryIpB = 0
    ∧ entryIpA.fIP ≠ entryIpB.fIP := by
  decide

/-- Counterexample to C7 as stated: when fingerprint resolution yields the
UNKNOWN sentinel (empty Identity Index), `getNickname` returns UNKNOWN *and*
creates a nickname-cache entry for the pair, so a later call will hit the
cache instead of re-attempting resolution. -/
theorem c7_counterexample :
    (getNickname baseState envQuiet "7.7.7.7" "9001").2 = Except.ok "UNKNOWN"
    ∧ dictLookup ((getNickname baseState envQuiet "7.7.7.7" "9001").1).nicknameLookupCache
        ("7.7.7.7", PyPort.str "9001") = some "UNKNOWN" := by
  decide

/-- C7 (amended): on a nickname-cache miss where fingerprint resolution
yields UNKNOWN, `getNickname` returns UNKNOWN and caches the UNKNOWN sentinel
under the raw (address, port) key; only a failure of the nickname lookup
itself returns UNKNOWN without caching. -/
theorem c7_unknown_cached (st : PanelState) (env : Env) (ipAddr port : String)
    (hc : dictLookup st.nicknameLookupCache (ipAddr, PyPort.str port) = none)
    (hfp : (getFingerprint st env ipAddr port).1 = "UNKNOWN") :
    getNickname st env ipAddr port
      = ({ (getFingerprint st env ipAddr port).2 with
            nicknameLookupCache :=
              (dictInsert ((getFingerprint st env ipAddr port).2).nicknameLookupCache
                (ipAddr, PyPort.str port) "UNKNOWN") },
         Except.ok "UNKNOWN") := by
  unfold getNickname
  rw [hc]
  simp only [hfp]
  simp

/-- Witness for C7's amended theorem at a concrete pair with an empty
Identity Index. -/
theorem c7_unknown_cached_witness :
    getNickname baseState envQuiet "7.7.7.7" "9001"
      = ({ (getFingerprint baseState envQuiet "7.7.7.7" "9001").2 with
            nicknameLookupCache :=
              (dictInsert ((getFingerprint baseState envQuiet "7.7.7.7" "9001").2).nicknameLookupCache
                ("7.7.7.7", PyPort.str "9001") "UNKNOWN") },
         Except.ok "UNKNOWN") :=
  c7_unknown_cached baseState envQuiet "7.7.7.7" "9001" (by decide) (by decide)

/-- C10 (code bug): with the panel paused and the client-connection cache
invalidated by a circuit-status event, a refresh tick that sees an entry
reaching the client-membership test raises an uncaught `TypeError` (iterating
`None`), instead of completing with a fallback. -/
theorem c10_paused_invalidated_cache_raises :
    (reset stPausedInvalidated envOneConn).2 = some PyError.typeError := by
  decide

end ConnPanel
